import Mathlib

/-!
Shallow embedding of `src/telegram_bot.py` (class `ChatGPT3TelegramBot`), a
Telegram relay bot in front of a ChatGPT backend.

Modelling conventions:

* Every observable side effect of a handler is recorded, in order, in a
  `List Effect`: outbound `send_message` calls (with their `chat_id`,
  `reply_to_message_id`, `parse_mode` and `disable_web_page_preview`
  arguments), outbound `send_chat_action` calls, and the calls into the
  backend (`gpt3_bot.get_chat_response` / `gpt3_bot.reset_chat`).
  `logging.info` calls are not modelled: per the specification, logging is
  externally provided infrastructure outside the observable contract.
* The backend (`gpt3_bot`, an opaque collaborator) is an oracle `Backend`:
  `get_chat_response` either returns a response dict `\x7bmessage: m\x7d`
  (modelled as `ChatResult.ok m`, following the documented backend contract
  `getResponse(text) -> \x7bmessage: string\x7d`) or raises an exception
  (`ChatResult.error e`); `reset_chat` either succeeds (`none`) or raises
  (`some e`).
* A handler that can let an exception propagate (only `reset`) returns a
  `HandlerResult`: the effects emitted before returning or raising, plus the
  propagated exception, if any. Handlers that cannot raise return the plain
  effect list.
* `update.message.reply_text(...)` (used by `help`) is modelled as a send to
  the message's chat without an explicit `reply_to_message_id` argument: the
  relay passes none, and any default quoting applied inside the Telegram SDK
  (the TransportAdapter) is out of scope.
* Python's `s.split(',')` is modelled by the structurally recursive
  `splitComma`, which matches Python's semantics exactly (in particular
  `splitComma "" = [""]` and empty fields are kept).
-/

namespace ChatGPT3TelegramBot

/-- Message formatting: the Telegram `parse_mode` argument, either absent
(plain text) or `PARSEMODE_MARKDOWN`. -/
inductive Formatting where
  | plain
  | markdown
  deriving DecidableEq, Repr

/-- The arguments of one outbound `send_message` call: target chat, text,
optional threading (`reply_to_message_id`), formatting, and whether the
link preview is suppressed. -/
structure SendMessage where
  chat_id : String
  text : String
  reply_to_message_id : Option String
  parse_mode : Formatting
  disable_web_page_preview : Bool
  deriving DecidableEq, Repr

/-- One observable side effect of a handler, in the order performed. -/
inductive Effect where
  | sendMessage (m : SendMessage)
  | sendChatAction (chat_id : String) (action : String)
  | getChatResponse (message : String)
  | resetChat
  deriving DecidableEq, Repr

/-- Whether an effect is a call into the ChatGPT backend
(`get_chat_response` or `reset_chat`). -/
def Effect.isBackendCall : Effect → Bool
  | .getChatResponse _ => true
  | .resetChat => true
  | _ => false

/-- Whether an effect is an outbound `send_chat_action` (typing indicator). -/
def Effect.isChatAction : Effect → Bool
  | .sendChatAction _ _ => true
  | _ => false

/-- Outcome of one `gpt3_bot.get_chat_response` call: a response dict
`\x7bmessage: m\x7d`, or a raised exception carrying message `e`. -/
inductive ChatResult where
  | ok (message : String)
  | error (e : String)
  deriving DecidableEq, Repr

/-- The opaque backend collaborator `gpt3_bot`, as an oracle: what each of
its two operations does when called during the event being handled.
`reset_chat = some e` means the call raises exception `e`; `none` means it
succeeds. -/
structure Backend where
  get_chat_response : String → ChatResult
  reset_chat : Option String

/-- The bot configuration dictionary; the relay only reads
`config['allowed_user_ids']`. -/
structure Config where
  allowed_user_ids : String
  deriving DecidableEq, Repr

/-- The fields of an incoming update the relay reads: `from_user_id` is
`str(update.message.from_user.id)` (the string conversion the source applies),
`effective_chat_id` is `update.effective_chat.id` (which for a message update
is also the message's chat), `message_id` is `update.message.message_id`,
and `text` is `update.message.text`. -/
structure Update where
  from_user_id : String
  effective_chat_id : String
  message_id : String
  text : String
  deriving DecidableEq, Repr

/-- Python's `s.split(',')` on the underlying character list: split at every
comma, keeping empty fields, so `splitCommaList [] = [[]]`. -/
def splitCommaList : List Char → List (List Char)
  | [] => [[]]
  | c :: cs =>
    match splitCommaList cs with
    | [] => [[]]
    | w :: ws => if c = ',' then [] :: w :: ws else (c :: w) :: ws

/-- Python's `s.split(',')`. -/
def splitComma (s : String) : List String :=
  (splitCommaList s.data).map (fun l => String.mk l)

/-- `ChatGPT3TelegramBot.is_allowed`: true when the configured
`allowed_user_ids` is the sentinel `"*"`, otherwise true iff the user's id
(already converted to a string) is a member of the comma-split allow-list. -/
def is_allowed (config : Config) (userId : String) : Bool :=
  if config.allowed_user_ids = "*" then true
  else (splitComma config.allowed_user_ids).contains userId

/-- The fixed disallowed-notice text (`self.disallowed_message`). -/
def disallowed_message : String :=
  "Sorry, you are not allowed to use this bot. You can check out the source code at https://github.com/n3d1117/chatgpt-telegram-bot"

/-- The `send_message` call made by `send_disallowed_message`: disallowed
text to the effective chat, no threading, no parse mode, link preview
suppressed. -/
def disallowedReply (u : Update) : SendMessage :=
  { chat_id := u.effective_chat_id
    text := disallowed_message
    reply_to_message_id := none
    parse_mode := Formatting.plain
    disable_web_page_preview := true }

/-- `ChatGPT3TelegramBot.send_disallowed_message`. -/
def send_disallowed_message (u : Update) : List Effect :=
  [Effect.sendMessage (disallowedReply u)]

/-- The static usage text sent by `help`. -/
def help_text : String :=
  "/start - Start the bot\n/reset - Reset conversation\n/help - Help menu\n\nOpen source at https://github.com/n3d1117/chatgpt-telegram-bot"

/-- The `reply_text` call made by `help`: usage text to the message's chat,
no explicit threading, no parse mode, link preview suppressed. -/
def helpReply (u : Update) : SendMessage :=
  { chat_id := u.effective_chat_id
    text := help_text
    reply_to_message_id := none
    parse_mode := Formatting.plain
    disable_web_page_preview := true }

/-- `ChatGPT3TelegramBot.help`: no access check, one static reply. -/
def help (u : Update) : List Effect :=
  [Effect.sendMessage (helpReply u)]

/-- The greeting `send_message` call made by `start` on the allowed path. -/
def startReply (u : Update) : SendMessage :=
  { chat_id := u.effective_chat_id
    text := "I'm a Chat-GPT3 Bot, please talk to me!"
    reply_to_message_id := none
    parse_mode := Formatting.plain
    disable_web_page_preview := false }

/-- `ChatGPT3TelegramBot.start`: reject disallowed users, else greet. -/
def start (config : Config) (u : Update) : List Effect :=
  if ¬ is_allowed config u.from_user_id then
    send_disallowed_message u
  else
    [Effect.sendMessage (startReply u)]

/-- The confirmation `send_message` call made by `reset` on success. -/
def doneReply (u : Update) : SendMessage :=
  { chat_id := u.effective_chat_id
    text := "Done!"
    reply_to_message_id := none
    parse_mode := Formatting.plain
    disable_web_page_preview := false }

/-- Result of a handler that may let an exception propagate: the effects it
performed, and the exception that escaped it, if any. -/
structure HandlerResult where
  effects : List Effect
  thrown : Option String
  deriving DecidableEq, Repr

/-- `ChatGPT3TelegramBot.reset`: reject disallowed users; otherwise call
`gpt3_bot.reset_chat()` — if it raises, the exception propagates (nothing
catches it) and the confirmation is never sent; if it succeeds, send
`"Done!"`. -/
def reset (config : Config) (b : Backend) (u : Update) : HandlerResult :=
  if ¬ is_allowed config u.from_user_id then
    { effects := send_disallowed_message u, thrown := none }
  else
    match b.reset_chat with
    | some e => { effects := [Effect.resetChat], thrown := some e }
    | none =>
      { effects := [Effect.resetChat, Effect.sendMessage (doneReply u)]
        thrown := none }

/-- The fixed apology text substituted when the backend call fails. -/
def trouble_message : String :=
  "I'm having some trouble talking to you, please try again later."

/-- `ChatGPT3TelegramBot.get_chatgpt_response`: call the backend; on success
return its response dict, on any exception catch it (log only) and return
the apology dict. Yields the effects of the call plus the `message` field of
the returned dict. -/
def get_chatgpt_response (b : Backend) (message : String) : List Effect × String :=
  match b.get_chat_response message with
  | ChatResult.ok m => ([Effect.getChatResponse message], m)
  | ChatResult.error _ => ([Effect.getChatResponse message], trouble_message)

/-- The `send_message` call made by `prompt`: response text to the effective
chat, threaded to the incoming message id, Markdown parse mode. -/
def promptReply (u : Update) (text : String) : SendMessage :=
  { chat_id := u.effective_chat_id
    text := text
    reply_to_message_id := some u.message_id
    parse_mode := Formatting.markdown
    disable_web_page_preview := false }

/-- The `send_chat_action` argument `constants.CHATACTION_TYPING`. -/
def typing_action : String := "typing"

/-- `ChatGPT3TelegramBot.prompt`: reject disallowed users; otherwise send
the typing indicator, call `get_chatgpt_response`, and send its `message`
as a Markdown reply threaded to the incoming message. -/
def prompt (config : Config) (b : Backend) (u : Update) : List Effect :=
  if ¬ is_allowed config u.from_user_id then
    send_disallowed_message u
  else
    Effect.sendChatAction u.effective_chat_id typing_action ::
      (get_chatgpt_response b u.text).1 ++
      [Effect.sendMessage (promptReply u (get_chatgpt_response b u.text).2)]

/-- A sample configuration with an explicit allow-list. -/
def cfgList : Config := { allowed_user_ids := "123,456" }

/-- A sample configuration with the sentinel allow-list. -/
def cfgAll : Config := { allowed_user_ids := "*" }

/-- A sample update from a user outside `cfgList`. -/
def uOutside : Update :=
  { from_user_id := "999", effective_chat_id := "chat7"
    message_id := "41", text := "hello" }

/-- A sample update from a user inside `cfgList`. -/
def uInside : Update :=
  { from_user_id := "123", effective_chat_id := "chat7"
    message_id := "41", text := "hello" }

/-- A sample backend whose calls all succeed. -/
def bOk : Backend :=
  { get_chat_response := fun _ => ChatResult.ok "Hi!", reset_chat := none }

/-- A sample backend whose calls all raise. -/
def bErr : Backend :=
  { get_chat_response := fun _ => ChatResult.error "boom"
    reset_chat := some "boom" }

/-- C2: for every userId (including the empty string), if the configured
allow-list equals the sentinel `"*"` meaning all users, `is_allowed` returns
true unconditionally. -/
theorem is_allowed_sentinel (config : Config) (userId : String)
    (h : config.allowed_user_ids = "*") :
    is_allowed config userId = true := by
  simp [is_allowed, h]

/-- Witness for C2 at the sentinel configuration and the empty user id. -/
theorem is_allowed_sentinel_witness :
    cfgAll.allowed_user_ids = "*" ∧ is_allowed cfgAll "" = true :=
  ⟨rfl, is_allowed_sentinel cfgAll "" rfl⟩

/-- C3: when the allow-list is not the sentinel, `is_allowed` returns true
iff the userId is exactly one of the elements of the configuration string
split on the comma delimiter (no trimming or normalization); in particular
for allow-list `"123,456"`, `"123"` is allowed and `"124"` is not. -/
theorem is_allowed_membership (config : Config) (userId : String)
    (h : config.allowed_user_ids ≠ "*") :
    (is_allowed config userId = true ↔
      userId ∈ splitComma config.allowed_user_ids) ∧
    is_allowed { allowed_user_ids := "123,456" } "123" = true ∧
    is_allowed { allowed_user_ids := "123,456" } "124" = false := by
  refine ⟨?_, by decide, by decide⟩
  simp [is_allowed, h]

/-- Witness for C3 at allow-list `"123,456"` and userId `"123"`. -/
theorem is_allowed_membership_witness :
    cfgList.allowed_user_ids ≠ "*" ∧
    (is_allowed cfgList "123" = true ↔
      "123" ∈ splitComma cfgList.allowed_user_ids) :=
  ⟨by decide, (is_allowed_membership cfgList "123" (by decide)).1⟩

/-- C1: a disallowed sender triggering `start`, `reset` or `prompt` gets
exactly one rejection reply (the fixed disallowed-notice text to the event's
chat) and no other effect: no backend call (`get_chat_response` or
`reset_chat`), no typing indicator, and `reset` raises nothing. -/
theorem disallowed_exactly_one_rejection (config : Config) (b : Backend)
    (u : Update) (h : is_allowed config u.from_user_id = false) :
    start config u = [Effect.sendMessage (disallowedReply u)] ∧
    (reset config b u).effects = [Effect.sendMessage (disallowedReply u)] ∧
    (reset config b u).thrown = none ∧
    prompt config b u = [Effect.sendMessage (disallowedReply u)] ∧
    (disallowedReply u).text = disallowed_message ∧
    (disallowedReply u).chat_id = u.effective_chat_id ∧
    (∀ e ∈ start config u, e.isBackendCall = false ∧ e.isChatAction = false) ∧
    (∀ e ∈ (reset config b u).effects,
      e.isBackendCall = false ∧ e.isChatAction = false) ∧
    (∀ e ∈ prompt config b u,
      e.isBackendCall = false ∧ e.isChatAction = false) := by
  simp [start, reset, prompt, send_disallowed_message, h, disallowedReply,
    Effect.isBackendCall, Effect.isChatAction]

/-- Witness for C1: the disallowed sample user against the explicit
allow-list, on the `prompt` path. -/
theorem disallowed_exactly_one_rejection_witness :
    is_allowed cfgList uOutside.from_user_id = false ∧
    prompt cfgList bOk uOutside =
      [Effect.sendMessage (disallowedReply uOutside)] :=
  ⟨by decide,
    (disallowed_exactly_one_rejection cfgList bOk uOutside (by decide)).2.2.2.1⟩

/-- C4: an allowed sender's text message, when the backend returns the
response dict with message `m`, produces the typing indicator to the event's
chat first, then the backend call, then exactly one reply whose text is `m`,
Markdown-formatted and threaded to the original message id. -/
theorem prompt_success (config : Config) (b : Backend) (u : Update)
    (m : String) (hAllow : is_allowed config u.from_user_id = true)
    (hResp : b.get_chat_response u.text = ChatResult.ok m) :
    prompt config b u =
      [Effect.sendChatAction u.effective_chat_id typing_action,
       Effect.getChatResponse u.text,
       Effect.sendMessage (promptReply u m)] ∧
    (promptReply u m).text = m ∧
    (promptReply u m).parse_mode = Formatting.markdown ∧
    (promptReply u m).reply_to_message_id = some u.message_id := by
  simp [prompt, hAllow, get_chatgpt_response, hResp, promptReply]

/-- Witness for C4: the allowed sample user with the succeeding backend. -/
theorem prompt_success_witness :
    is_allowed cfgList uInside.from_user_id = true ∧
    bOk.get_chat_response uInside.text = ChatResult.ok "Hi!" ∧
    prompt cfgList bOk uInside =
      [Effect.sendChatAction uInside.effective_chat_id typing_action,
       Effect.getChatResponse uInside.text,
       Effect.sendMessage (promptReply uInside "Hi!")] :=
  ⟨by decide, rfl,
    (prompt_success cfgList bOk uInside "Hi!" (by decide) rfl).1⟩

/-- C5: an allowed sender's text message, when the backend call raises, has
the error caught (nothing propagates: `prompt` still returns its effect
list) and still produces a reply whose text is exactly the apology string,
threaded to the original message id with Markdown formatting, like the
success path. -/
theorem prompt_backend_error (config : Config) (b : Backend) (u : Update)
    (e : String) (hAllow : is_allowed config u.from_user_id = true)
    (hErr : b.get_chat_response u.text = ChatResult.error e) :
    prompt config b u =
      [Effect.sendChatAction u.effective_chat_id typing_action,
       Effect.getChatResponse u.text,
       Effect.sendMessage (promptReply u trouble_message)] ∧
    trouble_message =
      "I'm having some trouble talking to you, please try again later." ∧
    (promptReply u trouble_message).reply_to_message_id =
      some u.message_id ∧
    (promptReply u trouble_message).parse_mode = Formatting.markdown := by
  simp [prompt, hAllow, get_chatgpt_response, hErr, promptReply,
    trouble_message]

/-- Witness for C5: the allowed sample user with the raising backend. -/
theorem prompt_backend_error_witness :
    is_allowed cfgList uInside.from_user_id = true ∧
    bErr.get_chat_response uInside.text = ChatResult.error "boom" ∧
    prompt cfgList bErr uInside =
      [Effect.sendChatAction uInside.effective_chat_id typing_action,
       Effect.getChatResponse uInside.text,
       Effect.sendMessage (promptReply uInside trouble_message)] :=
  ⟨by decide, rfl,
    (prompt_backend_error cfgList bErr uInside "boom" (by decide) rfl).1⟩

/-- C6: an allowed sender's `/reset`, when the backend reset succeeds,
calls `reset_chat` exactly once and then sends exactly one reply with text
`"Done!"` to the event's chat; nothing propagates. -/
theorem reset_success (config : Config) (b : Backend) (u : Update)
    (hAllow : is_allowed config u.from_user_id = true)
    (hOk : b.reset_chat = none) :
    (reset config b u).effects =
      [Effect.resetChat, Effect.sendMessage (doneReply u)] ∧
    (reset config b u).thrown = none ∧
    (reset config b u).effects.countP (fun e => e == Effect.resetChat) = 1 ∧
    (doneReply u).text = "Done!" ∧
    (doneReply u).chat_id = u.effective_chat_id := by
  simp [reset, hAllow, hOk, doneReply, List.countP_cons]

/-- Witness for C6: the allowed sample user with the succeeding backend. -/
theorem reset_success_witness :
    is_allowed cfgList uInside.from_user_id = true ∧
    bOk.reset_chat = none ∧
    (reset cfgList bOk uInside).effects =
      [Effect.resetChat, Effect.sendMessage (doneReply uInside)] :=
  ⟨by decide, rfl, (reset_success cfgList bOk uInside (by decide) rfl).1⟩

/-- C7: an allowed sender's `/reset`, when `reset_chat` raises, lets the
error propagate out of the handler uncaught, and no confirmation reply
(no `send_message` at all, in particular not `"Done!"`) is sent. -/
theorem reset_backend_error (config : Config) (b : Backend) (u : Update)
    (e : String) (hAllow : is_allowed config u.from_user_id = true)
    (hErr : b.reset_chat = some e) :
    (reset config b u).thrown = some e ∧
    (reset config b u).effects = [Effect.resetChat] ∧
    ∀ m, Effect.sendMessage m ∉ (reset config b u).effects := by
  simp [reset, hAllow, hErr]

/-- Witness for C7: the allowed sample user with the raising backend. -/
theorem reset_backend_error_witness :
    is_allowed cfgList uInside.from_user_id = true ∧
    bErr.reset_chat = some "boom" ∧
    (reset cfgList bErr uInside).thrown = some "boom" :=
  ⟨by decide, rfl,
    (reset_backend_error cfgList bErr uInside "boom" (by decide) rfl).1⟩

/-- C8: `help` performs no access check — for every update, whatever the
sender (the handler never consults `is_allowed` and takes no config) — and
emits exactly one static usage-text reply that lists `/start`, `/reset` and
`/help`, with the link preview suppressed. -/
theorem help_unconditional (u : Update) :
    help u = [Effect.sendMessage (helpReply u)] ∧
    (helpReply u).text = help_text ∧
    (helpReply u).disable_web_page_preview = true ∧
    (helpReply u).chat_id = u.effective_chat_id ∧
    "/start".data <:+: help_text.data ∧
    "/reset".data <:+: help_text.data ∧
    "/help".data <:+: help_text.data := by
  refine ⟨rfl, rfl, rfl, rfl, ?_, ?_, ?_⟩ <;> decide

/-- C9: for an allowed sender's text message the typing indicator is emitted
exactly once and before the backend call, even when the backend raises: on
the failure path the effects are the typing indicator, then the backend
call, then the apology reply, in that order. -/
theorem typing_once_before_backend (config : Config) (b : Backend)
    (u : Update) (e : String)
    (hAllow : is_allowed config u.from_user_id = true)
    (hErr : b.get_chat_response u.text = ChatResult.error e) :
    prompt config b u =
      [Effect.sendChatAction u.effective_chat_id typing_action,
       Effect.getChatResponse u.text,
       Effect.sendMessage (promptReply u trouble_message)] ∧
    (prompt config b u).countP Effect.isChatAction = 1 ∧
    (∀ b' : Backend, (prompt config b' u).countP Effect.isChatAction = 1 ∧
      (prompt config b' u).head? =
        some (Effect.sendChatAction u.effective_chat_id typing_action)) := by
  refine ⟨?_, ?_, ?_⟩
  · simp [prompt, hAllow, get_chatgpt_response, hErr]
  · simp [prompt, hAllow, get_chatgpt_response, hErr, List.countP_cons,
      Effect.isChatAction]
  · intro b'
    cases hr : b'.get_chat_response u.text <;>
      simp [prompt, hAllow, get_chatgpt_response, hr, List.countP_cons,
        Effect.isChatAction]

/-- Witness for C9: the allowed sample user with the raising backend. -/
theorem typing_once_before_backend_witness :
    is_allowed cfgList uInside.from_user_id = true ∧
    (prompt cfgList bErr uInside).countP Effect.isChatAction = 1 :=
  ⟨by decide,
    (typing_once_before_backend cfgList bErr uInside "boom"
      (by decide) rfl).2.1⟩

/-- C10: the greeting (`start`), the `"Done!"` confirmation (`reset`), the
disallowed notice and the help reply all carry no `reply_to_message_id` and
no parse mode (plain formatting); only the `prompt` reply is threaded to the
original message id and Markdown-formatted. -/
theorem only_prompt_reply_threaded (u : Update) (m : String) :
    (startReply u).reply_to_message_id = none ∧
    (startReply u).parse_mode = Formatting.plain ∧
    (doneReply u).reply_to_message_id = none ∧
    (doneReply u).parse_mode = Formatting.plain ∧
    (disallowedReply u).reply_to_message_id = none ∧
    (disallowedReply u).parse_mode = Formatting.plain ∧
    (helpReply u).reply_to_message_id = none ∧
    (helpReply u).parse_mode = Formatting.plain ∧
    (promptReply u m).reply_to_message_id = some u.message_id ∧
    (promptReply u m).parse_mode = Formatting.markdown := by
  exact ⟨rfl, rfl, rfl, rfl, rfl, rfl, rfl, rfl, rfl, rfl⟩

end ChatGPT3TelegramBot
